import Mathlib

/-!
Shallow embedding of the nft-candy-machine program
(src/rust/nft-candy-machine/src/lib.rs) and proofs about its record
ledger, configuration and claim operations.

Machine integers are modelled as `Nat` with explicit moduli where the
source performs a cast or a checked addition.  Account byte buffers are
`List Nat` (each entry one byte).  Rust strings are modelled by their
byte contents (`List Nat`).  A fallible Solana instruction is modelled
by `RunResult`: `ok` for `Ok`, `err` for an early `Err` return (a
`ProgramError`), and `panic` for a Rust abort (slice indexing out of
bounds, `copy_from_slice` length mismatch, arithmetic underflow or
overflow in unchecked `-` under the build profile's overflow checks).
-/

set_option maxRecDepth 100000

/-- Constant `MAX_NAME_LENGTH` imported from `spl_token_metadata::state`. -/
def MAX_NAME_LENGTH : Nat := 32

/-- Constant `MAX_SYMBOL_LENGTH` imported from `spl_token_metadata::state`. -/
def MAX_SYMBOL_LENGTH : Nat := 10

/-- Constant `MAX_URI_LENGTH` imported from `spl_token_metadata::state`. -/
def MAX_URI_LENGTH : Nat := 200

/-- Constant `MAX_CREATOR_LIMIT` imported from `spl_token_metadata::state`. -/
def MAX_CREATOR_LIMIT : Nat := 5

/-- Constant `MAX_CREATOR_LEN` imported from `spl_token_metadata::state` (32 + 1 + 1). -/
def MAX_CREATOR_LEN : Nat := 34

/-- Byte offset of the live-count header inside a config account
(`CONFIG_ARRAY_START` in lib.rs, the sum written there). -/
def CONFIG_ARRAY_START : Nat :=
  1 + 32 + 4 + 6 + 4 + MAX_SYMBOL_LENGTH + 2 + 1 + 4 +
    MAX_CREATOR_LIMIT * MAX_CREATOR_LEN + 8 + 1 + 1 + 4

/-- Size in bytes of one config-line slot (`CONFIG_LINE_SIZE` in lib.rs). -/
def CONFIG_LINE_SIZE : Nat := 4 + MAX_NAME_LENGTH + 4 + MAX_URI_LENGTH

/-- One more than the largest `u64` value. -/
def U64_MODULUS : Nat := 2 ^ 64

/-- One more than the largest `u32` value. -/
def U32_MODULUS : Nat := 2 ^ 32

/-- The `ErrorCode` enum of lib.rs. -/
inductive ErrorCode where
  | IncorrectOwner
  | Uninitialized
  | MintMismatch
  | IndexGreaterThanLength
  | ConfigMustHaveAtleastOneEntry
  | NumericalOverflowError
  | TooManyCreators
  | UuidMustBeExactly6Length
  | NotEnoughTokens
  | NotEnoughSOL
  | TokenTransferFailed
  | CandyMachineEmpty
  | CandyMachineNotLiveYet
  deriving DecidableEq, Repr

/-- A `ProgramError` as surfaced by the instruction handlers: either one of
the program's own `ErrorCode`s, a Borsh deserialization failure propagated
by the question-mark operator in `get_config_line`, or an error returned by
a delegated cross-program call (system transfer, token program, token
metadata program). -/
inductive ProgErr where
  | code (e : ErrorCode)
  | deserializeFailed
  | external
  deriving DecidableEq, Repr

/-- Outcome of running one instruction: an `Ok` value, an `Err` return, or
a Rust abort (out-of-bounds slice, length-mismatched `copy_from_slice`,
or an underflowing/overflowing unchecked subtraction). -/
inductive RunResult (α : Type) where
  | ok (a : α)
  | err (e : ProgErr)
  | panic
  deriving DecidableEq, Repr

/-- Sequencing of fallible steps, mirroring the question-mark operator. -/
def RunResult.bind {α β : Type} : RunResult α → (α → RunResult β) → RunResult β
  | .ok a, f => f a
  | .err e, _ => .err e
  | .panic, _ => .panic

@[simp] theorem RunResult.bind_ok {α β : Type} (a : α) (f : α → RunResult β) :
    RunResult.bind (.ok a) f = f a := rfl

@[simp] theorem RunResult.bind_err {α β : Type} (e : ProgErr) (f : α → RunResult β) :
    RunResult.bind (.err e) f = .err e := rfl

@[simp] theorem RunResult.bind_panic {α β : Type} (f : α → RunResult β) :
    RunResult.bind .panic f = .panic := rfl

/-- Little-endian bytes of a `u32` value (`to_le_bytes`). -/
def toLE4 (n : Nat) : List Nat :=
  [n % 256, n / 256 % 256, n / 256 ^ 2 % 256, n / 256 ^ 3 % 256]

/-- Read four little-endian bytes as a `u32` (`u32::from_le_bytes`). -/
def fromLE4 : List Nat → Nat
  | [a, b, c, d] => a + 256 * (b + 256 * (c + 256 * d))
  | _ => 0

/-- The byte range `[lo, hi)` of a buffer, as produced by Rust slicing
after the caller has checked `hi ≤ data.len()`. -/
def byteSlice (data : List Nat) (lo hi : Nat) : List Nat :=
  (data.drop lo).take (hi - lo)

/-- Overwrite `data[pos .. pos + src.length)` with `src`
(`copy_from_slice` into a mutable sub-slice); used only after the
bounds `pos + src.length ≤ data.length` have been checked. -/
def writeSlice (data : List Nat) (pos : Nat) (src : List Nat) : List Nat :=
  data.take pos ++ src ++ data.drop (pos + src.length)

/-- The `Creator` struct of lib.rs (addresses modelled as `Nat`). -/
structure Creator where
  address : Nat
  verified : Bool
  share : Nat
  deriving DecidableEq, Repr

/-- The `ConfigData` struct of lib.rs.  Strings are byte lists. -/
structure ConfigData where
  uuid : List Nat
  symbol : List Nat
  seller_fee_basis_points : Nat
  creators : List Creator
  max_supply : Nat
  is_mutable : Bool
  retain_authority : Bool
  max_number_of_lines : Nat
  deriving DecidableEq, Repr

/-- The deserialized header of a `Config` account of lib.rs. -/
structure Config where
  bump : Nat
  authority : Nat
  data : ConfigData
  deriving DecidableEq, Repr

/-- The `ConfigLine` struct of lib.rs: one (name, uri) template record. -/
structure ConfigLine where
  name : List Nat
  uri : List Nat
  deriving DecidableEq, Repr

/-- The `CandyMachineData` struct of lib.rs. -/
structure CandyMachineData where
  uuid : List Nat
  price : Nat
  items_available : Nat
  go_live_date : Option Int
  deriving DecidableEq, Repr

/-- The `CandyMachine` account struct of lib.rs. -/
structure CandyMachine where
  authority : Nat
  wallet : Nat
  token_mint : Option Nat
  config : Nat
  data : CandyMachineData
  items_redeemed : Nat
  bump : Nat
  deriving DecidableEq, Repr

/-- Borsh serialization of a string: 4-byte little-endian length prefix
followed by the bytes (`AnchorSerialize` on `String`). -/
def encodeString (s : List Nat) : List Nat :=
  toLE4 s.length ++ s

/-- Borsh serialization of one `ConfigLine` (name, then uri). -/
def encodeLine (l : ConfigLine) : List Nat :=
  encodeString l.name ++ encodeString l.uri

/-- Concatenated Borsh serializations of a list of `ConfigLine`s, i.e.
`fixed_config_lines.try_to_vec()` with its leading 4-byte vector length
already removed. -/
def encodeLines (ls : List ConfigLine) : List Nat :=
  (ls.map encodeLine).flatten

/-- Borsh deserialization of a string from a prefix of `bs`: reads the
4-byte little-endian length, then that many bytes; returns the string and
the unconsumed remainder, or `none` if the input is too short. -/
def readString (bs : List Nat) : Option (List Nat × List Nat) :=
  if 4 ≤ bs.length then
    let n := fromLE4 (bs.take 4)
    let rest := bs.drop 4
    if n ≤ rest.length then some (rest.take n, rest.drop n) else none
  else none

/-- The semantics of `ConfigLine::try_from_slice`: decode name and uri and
require the whole slice to be consumed (Borsh rejects trailing bytes). -/
def tryFromSlice (bs : List Nat) : Option ConfigLine :=
  match readString bs with
  | none => none
  | some (name, r1) =>
    match readString r1 with
    | none => none
    | some (uri, r2) => if r2 = [] then some ⟨name, uri⟩ else none

/-- The `get_config_count` helper of lib.rs: read the 4-byte little-endian
live count at `CONFIG_ARRAY_START`; the `array_ref!` macro aborts if the
buffer is too short. -/
def get_config_count (data : List Nat) : RunResult Nat :=
  if CONFIG_ARRAY_START + 4 ≤ data.length then
    .ok (fromLE4 (byteSlice data CONFIG_ARRAY_START (CONFIG_ARRAY_START + 4)))
  else .panic

/-- The `get_config_line` function of lib.rs: rejects `index > total`,
then slices the fixed-width slot at
`CONFIG_ARRAY_START + 4 + index * CONFIG_LINE_SIZE` (a Rust slice that
aborts when its end exceeds the buffer) and Borsh-decodes it. -/
def get_config_line (data : List Nat) (index : Nat) : RunResult ConfigLine :=
  RunResult.bind (get_config_count data) fun total =>
    if index > total then .err (.code .IndexGreaterThanLength)
    else if CONFIG_ARRAY_START + 4 + (index + 1) * CONFIG_LINE_SIZE ≤ data.length then
      match tryFromSlice (byteSlice data (CONFIG_ARRAY_START + 4 + index * CONFIG_LINE_SIZE)
          (CONFIG_ARRAY_START + 4 + (index + 1) * CONFIG_LINE_SIZE)) with
      | some cl => .ok cl
      | none => .err .deserializeFailed
    else .panic

/-- Right-padding of a field to a fixed width by the while-loop pattern of
lib.rs: it pushes zero bytes while the count is below `width - s.length`.
When `s.length > width` the unchecked `usize` subtraction underflows and
the operation aborts (modelled as `panic`); there is no validation error. -/
def padField (width : Nat) (s : List Nat) : RunResult (List Nat) :=
  if s.length ≤ width then .ok (s ++ List.replicate (width - s.length) 0)
  else .panic

/-- Padding of one `ConfigLine` inside the loop of `add_config_lines`:
name to `MAX_NAME_LENGTH`, uri to `MAX_URI_LENGTH`. -/
def padConfigLine (l : ConfigLine) : RunResult ConfigLine :=
  RunResult.bind (padField MAX_NAME_LENGTH l.name) fun name =>
  RunResult.bind (padField MAX_URI_LENGTH l.uri) fun uri =>
  .ok ⟨name, uri⟩

/-- The padding loop of `add_config_lines`, building `fixed_config_lines`
in input order. -/
def padLines : List ConfigLine → RunResult (List ConfigLine)
  | [] => .ok []
  | l :: ls =>
    RunResult.bind (padConfigLine l) fun l2 =>
    RunResult.bind (padLines ls) fun ls2 =>
    .ok (l2 :: ls2)

/-- The `add_config_lines` instruction of lib.rs.  Reads the current
count, checks `index > max_number_of_lines - 1` (a `u32` subtraction that
underflows and aborts when `max_number_of_lines = 0`), pads every line,
serializes them with the vector length prefix dropped, writes them at
`CONFIG_ARRAY_START + 4 + index * CONFIG_LINE_SIZE` (a slice that aborts
when its end exceeds the buffer, with a `copy_from_slice` that aborts on a
length mismatch), then stores `current_count + lines` (checked `usize`
addition) truncated to `u32` into the count header.  Returns the new
account bytes. -/
def add_config_lines (config : Config) (data : List Nat) (index : Nat)
    (config_lines : List ConfigLine) : RunResult (List Nat) :=
  RunResult.bind (get_config_count data) fun current_count =>
    if config.data.max_number_of_lines = 0 then .panic
    else if index > config.data.max_number_of_lines - 1 then
      .err (.code .IndexGreaterThanLength)
    else
      RunResult.bind (padLines config_lines) fun fixed_config_lines =>
        let serialized :=
          (toLE4 fixed_config_lines.length ++ encodeLines fixed_config_lines).drop 4
        let position := CONFIG_ARRAY_START + 4 + index * CONFIG_LINE_SIZE
        if position + fixed_config_lines.length * CONFIG_LINE_SIZE ≤ data.length then
          if serialized.length = fixed_config_lines.length * CONFIG_LINE_SIZE then
            let data2 := writeSlice data position serialized
            if current_count + fixed_config_lines.length < U64_MODULUS then
              .ok (writeSlice data2 CONFIG_ARRAY_START
                (toLE4 ((current_count + fixed_config_lines.length) % U32_MODULUS)))
            else .err (.code .NumericalOverflowError)
          else .panic
        else .panic

/-- A freshly allocated config account: Anchor's `init` zeroes the region,
whose size the `InitializeConfig` accounts struct fixes to
`CONFIG_ARRAY_START + 4 + max_number_of_lines * CONFIG_LINE_SIZE`. -/
def freshLedger (cap : Nat) : List Nat :=
  List.replicate (CONFIG_ARRAY_START + 4 + cap * CONFIG_LINE_SIZE) 0

/-- The `initialize_config` instruction of lib.rs: requires a 6-byte uuid,
pads the symbol to `MAX_SYMBOL_LENGTH` by the same while-loop pattern as
config lines (aborting when the symbol is longer), and rejects more than
`MAX_CREATOR_LIMIT - 1` creators. -/
def initialize_config (authority : Nat) (bump : Nat) (data : ConfigData) :
    RunResult Config :=
  if data.uuid.length ≠ 6 then .err (.code .UuidMustBeExactly6Length)
  else
    match padField MAX_SYMBOL_LENGTH data.symbol with
    | .panic => .panic
    | .err e => .err e
    | .ok new_symbol =>
      if data.creators.length > MAX_CREATOR_LIMIT - 1 then
        .err (.code .TooManyCreators)
      else
        .ok { bump := bump, authority := authority,
              data := { data with symbol := new_symbol } }

/-- Numeric stand-in for the `spl_token` program id, used as the expected
owner in the `assert_owned_by` checks. -/
def spl_token_id : Nat := 1

/-- View of an `AccountInfo` as used by the payment and wallet checks:
its address, owning program, whether its token-account data deserializes
as initialized, and the `mint` and `amount` fields of that data.

Modelled from the spec: the helpers `assert_initialized` and
`assert_owned_by` live in `src/utils.rs`, which is not part of the
sources; per the error taxonomy they fail with `Uninitialized`
respectively `IncorrectOwner`. -/
structure SplAccountInfo where
  key : Nat
  owner : Nat
  initialized : Bool
  mint : Nat
  amount : Nat
  deriving DecidableEq, Repr

/-- The final check of `initialize_candy_machine`: `get_config_line` at
index 0, any `Err` mapped to `ConfigMustHaveAtleastOneEntry`; a Rust
abort inside `get_config_line` propagates. -/
def check_config_has_line (config_account_data : List Nat)
    (cm : CandyMachine) : RunResult CandyMachine :=
  match get_config_line config_account_data 0 with
  | .ok _ => .ok cm
  | .err _ => .err (.code .ConfigMustHaveAtleastOneEntry)
  | .panic => .panic

/-- The `initialize_candy_machine` instruction of lib.rs: requires a
6-byte uuid, fills in the candy machine fields (`items_redeemed` starts
at 0 from Anchor's zero-initialized account), optionally validates a
token mint passed in the remaining accounts against the wallet token
account, and finally requires the bound config to yield a config line at
index 0. -/
def initialize_candy_machine (authority wallet_key config_key : Nat)
    (bump : Nat) (data : CandyMachineData) (wallet_account : SplAccountInfo)
    (remaining_token_mint : Option SplAccountInfo)
    (config_account_data : List Nat) : RunResult CandyMachine :=
  if data.uuid.length ≠ 6 then .err (.code .UuidMustBeExactly6Length)
  else
    let base : CandyMachine :=
      { authority := authority, wallet := wallet_key, token_mint := none,
        config := config_key, data := data, items_redeemed := 0, bump := bump }
    match remaining_token_mint with
    | some token_mint_info =>
      if ¬ token_mint_info.initialized then .err (.code .Uninitialized)
      else if ¬ wallet_account.initialized then .err (.code .Uninitialized)
      else if token_mint_info.owner ≠ spl_token_id then .err (.code .IncorrectOwner)
      else if wallet_account.owner ≠ spl_token_id then .err (.code .IncorrectOwner)
      else if wallet_account.mint ≠ token_mint_info.key then .err (.code .MintMismatch)
      else check_config_has_line config_account_data
        { base with token_mint := some token_mint_info.key }
    | none => check_config_has_line config_account_data base

/-- Caller-supplied context of one `mint_nft` invocation: the payer, the
clock sysvar, the payer's lamport balance, the token account and transfer
authority passed as remaining accounts for token payment, the supplied
update authority, the candy machine account's own address, and the
outcomes of the four delegated cross-program calls.

Modelled from the spec: `spl_token_transfer` lives in `src/utils.rs`,
which is not part of the sources; per the error taxonomy its failure
surfaces as `TokenTransferFailed`, while the system transfer and the two
token-metadata calls propagate their own (external) errors. -/
structure MintEnv where
  payer : Nat
  now : Int
  payer_lamports : Nat
  token_account : SplAccountInfo
  token_transfer_ok : Bool
  sol_transfer_ok : Bool
  metadata_cpi_ok : Bool
  master_edition_cpi_ok : Bool
  update_authority : Nat
  candy_machine_key : Nat
  deriving DecidableEq, Repr

/-- The payment block of `mint_nft` (lib.rs lines 53-93): token transfer
when a `token_mint` is configured, otherwise a native lamport transfer. -/
def mint_payment (candy_machine : CandyMachine) (env : MintEnv) : RunResult Unit :=
  match candy_machine.token_mint with
  | some mint =>
    if ¬ env.token_account.initialized then .err (.code .Uninitialized)
    else if env.token_account.owner ≠ spl_token_id then .err (.code .IncorrectOwner)
    else if env.token_account.mint ≠ mint then .err (.code .MintMismatch)
    else if env.token_account.amount < candy_machine.data.price then
      .err (.code .NotEnoughTokens)
    else if env.token_transfer_ok then .ok () else .err (.code .TokenTransferFailed)
  | none =>
    if env.payer_lamports < candy_machine.data.price then .err (.code .NotEnoughSOL)
    else if env.sol_transfer_ok then .ok () else .err .external

/-- Everything `mint_nft` does after the go-live window check: the
capacity check, payment, the checked counter increment, the config-line
read at index 0, the creator-list assembly and the two delegated
token-metadata calls.  Returns the candy machine with its incremented
`items_redeemed`. -/
def mint_nft_after_window (candy_machine : CandyMachine) (config : Config)
    (config_account_data : List Nat) (env : MintEnv) : RunResult CandyMachine :=
  if candy_machine.items_redeemed ≥ candy_machine.data.items_available then
    .err (.code .CandyMachineEmpty)
  else
    RunResult.bind (mint_payment candy_machine env) fun _ =>
      if candy_machine.items_redeemed + 1 < U64_MODULUS then
        let cm2 :=
          { candy_machine with items_redeemed := candy_machine.items_redeemed + 1 }
        RunResult.bind (get_config_line config_account_data 0) fun _config_line =>
          let _creators : List Creator :=
            ⟨env.candy_machine_key, true, 0⟩ ::
              config.data.creators.map (fun c => ⟨c.address, false, c.share⟩)
          let _update_authority : Nat :=
            if config.data.retain_authority then env.candy_machine_key
            else env.update_authority
          if env.metadata_cpi_ok then
            if env.master_edition_cpi_ok then .ok cm2 else .err .external
          else .err .external
      else .err (.code .NumericalOverflowError)

/-- The `mint_nft` instruction of lib.rs: the go-live window check of
lines 34-47 followed by `mint_nft_after_window`. -/
def mint_nft (candy_machine : CandyMachine) (config : Config)
    (config_account_data : List Nat) (env : MintEnv) : RunResult CandyMachine :=
  match candy_machine.data.go_live_date with
  | none =>
    if env.payer ≠ candy_machine.authority then .err (.code .CandyMachineNotLiveYet)
    else mint_nft_after_window candy_machine config config_account_data env
  | some val =>
    if env.now < val then
      if env.payer ≠ candy_machine.authority then .err (.code .CandyMachineNotLiveYet)
      else mint_nft_after_window candy_machine config config_account_data env
    else mint_nft_after_window candy_machine config config_account_data env

/-- The padded form of a config line, as computed by the padding loop of
`add_config_lines` on inputs that fit the fixed widths. -/
def padLineF (l : ConfigLine) : ConfigLine :=
  ⟨l.name ++ List.replicate (MAX_NAME_LENGTH - l.name.length) 0,
   l.uri ++ List.replicate (MAX_URI_LENGTH - l.uri.length) 0⟩

theorem CONFIG_ARRAY_START_eq : CONFIG_ARRAY_START = 248 := rfl

theorem CONFIG_LINE_SIZE_eq : CONFIG_LINE_SIZE = 240 := rfl

theorem length_toLE4 (n : Nat) : (toLE4 n).length = 4 := rfl

theorem fromLE4_toLE4 {n : Nat} (h : n < U32_MODULUS) : fromLE4 (toLE4 n) = n := by
  simp only [toLE4, fromLE4, U32_MODULUS] at *
  omega

theorem take4_toLE4_append (n : Nat) (l : List Nat) : ((toLE4 n) ++ l).take 4 = toLE4 n := by
  have h := List.take_left (toLE4 n) l
  rwa [length_toLE4] at h

theorem drop4_toLE4_append (n : Nat) (l : List Nat) : ((toLE4 n) ++ l).drop 4 = l := by
  have h := List.drop_left (toLE4 n) l
  rwa [length_toLE4] at h

theorem drop_append_ge {α : Type} {l1 l2 : List α} {n : Nat} (h : l1.length ≤ n) :
    (l1 ++ l2).drop n = l2.drop (n - l1.length) := by
  conv_lhs => rw [show n = l1.length + (n - l1.length) from by omega]
  exact List.drop_append _

theorem length_writeSlice {data src : List Nat} {pos : Nat}
    (h : pos + src.length ≤ data.length) :
    (writeSlice data pos src).length = data.length := by
  simp only [writeSlice, List.length_append, List.length_take, List.length_drop]
  omega

theorem byteSlice_suffix_writeSlice {d src : List Nat} {pos lo hi : Nat}
    (h1 : pos + src.length ≤ d.length) (h2 : pos + src.length ≤ lo) :
    byteSlice (writeSlice d pos src) lo hi = byteSlice d lo hi := by
  have hp : (d.take pos).length = pos := by
    rw [List.length_take]; omega
  unfold byteSlice writeSlice
  rw [drop_append_ge (by rw [List.length_append, hp]; omega), List.length_append, hp,
    List.drop_drop]
  congr 2
  omega

theorem byteSlice_within_writeSlice {d src : List Nat} {pos lo hi : Nat}
    (h1 : pos + src.length ≤ d.length) (h2 : pos ≤ lo) (h3 : lo ≤ hi)
    (h4 : hi ≤ pos + src.length) :
    byteSlice (writeSlice d pos src) lo hi = byteSlice src (lo - pos) (hi - pos) := by
  have hp : (d.take pos).length = pos := by
    rw [List.length_take]; omega
  unfold byteSlice writeSlice
  rw [List.drop_append_of_le_length (by rw [List.length_append, hp]; omega),
    drop_append_ge (by rw [hp]; omega), hp,
    List.take_append_of_le_length (by rw [List.length_drop]; omega)]
  congr 1
  omega

theorem byteSlice_zero_length (src : List Nat) : byteSlice src 0 src.length = src := by
  simp [byteSlice]

theorem byteSlice_self_writeSlice {d src : List Nat} {pos : Nat}
    (h1 : pos + src.length ≤ d.length) :
    byteSlice (writeSlice d pos src) pos (pos + src.length) = src := by
  rw [byteSlice_within_writeSlice h1 (le_refl pos) (by omega) (le_refl _)]
  simp [byteSlice_zero_length]

theorem length_encodeString (s : List Nat) : (encodeString s).length = 4 + s.length := by
  simp only [encodeString, List.length_append, length_toLE4]

theorem length_encodeLine (l : ConfigLine) :
    (encodeLine l).length = 8 + l.name.length + l.uri.length := by
  simp only [encodeLine, List.length_append, length_encodeString]
  omega

theorem padField_ok {w : Nat} {s : List Nat} (h : s.length ≤ w) :
    padField w s = .ok (s ++ List.replicate (w - s.length) 0) := by
  simp [padField, h]

theorem padConfigLine_ok {l : ConfigLine} (h1 : l.name.length ≤ MAX_NAME_LENGTH)
    (h2 : l.uri.length ≤ MAX_URI_LENGTH) : padConfigLine l = .ok (padLineF l) := by
  simp [padConfigLine, padField_ok h1, padField_ok h2, padLineF]

theorem padLines_ok {ls : List ConfigLine}
    (h : ∀ l ∈ ls, l.name.length ≤ MAX_NAME_LENGTH ∧ l.uri.length ≤ MAX_URI_LENGTH) :
    padLines ls = .ok (ls.map padLineF) := by
  induction ls with
  | nil => rfl
  | cons a t ih =>
    have ha := h a (by simp)
    simp [padLines, padConfigLine_ok ha.1 ha.2, ih (fun l hl => h l (by simp [hl]))]

theorem padLineF_name_length {l : ConfigLine} (h : l.name.length ≤ MAX_NAME_LENGTH) :
    (padLineF l).name.length = MAX_NAME_LENGTH := by
  simp only [padLineF, List.length_append, List.length_replicate]
  omega

theorem padLineF_uri_length {l : ConfigLine} (h : l.uri.length ≤ MAX_URI_LENGTH) :
    (padLineF l).uri.length = MAX_URI_LENGTH := by
  simp only [padLineF, List.length_append, List.length_replicate]
  omega

theorem length_encodeLine_padLineF {l : ConfigLine} (h1 : l.name.length ≤ MAX_NAME_LENGTH)
    (h2 : l.uri.length ≤ MAX_URI_LENGTH) :
    (encodeLine (padLineF l)).length = CONFIG_LINE_SIZE := by
  rw [length_encodeLine, padLineF_name_length h1, padLineF_uri_length h2]
  rfl

theorem encodeLines_cons (a : ConfigLine) (t : List ConfigLine) :
    encodeLines (a :: t) = encodeLine a ++ encodeLines t := by
  simp [encodeLines]

theorem length_encodeLines {ls : List ConfigLine}
    (h : ∀ l ∈ ls, (encodeLine l).length = CONFIG_LINE_SIZE) :
    (encodeLines ls).length = ls.length * CONFIG_LINE_SIZE := by
  induction ls with
  | nil => simp [encodeLines]
  | cons a t ih =>
    rw [encodeLines_cons, List.length_append, h a (by simp),
      ih (fun l hl => h l (by simp [hl])), List.length_cons]
    ring

theorem readString_encodeString {s : List Nat} (rest : List Nat) (h : s.length < U32_MODULUS) :
    readString (encodeString s ++ rest) = some (s, rest) := by
  unfold readString encodeString
  rw [List.append_assoc, take4_toLE4_append, drop4_toLE4_append, fromLE4_toLE4 h]
  rw [if_pos (by simp [List.length_append, length_toLE4])]
  simp only [List.take_left, List.drop_left]
  rw [if_pos (by simp [List.length_append])]

theorem tryFromSlice_encodeLine {l : ConfigLine} (h1 : l.name.length < U32_MODULUS)
    (h2 : l.uri.length < U32_MODULUS) :
    tryFromSlice (encodeLine l) = some l := by
  unfold tryFromSlice encodeLine
  rw [readString_encodeString _ h1]
  have h3 : readString (encodeString l.uri) = some (l.uri, []) := by
    have h4 := @readString_encodeString l.uri [] h2
    rwa [List.append_nil] at h4
  simp [h3]

theorem get_config_count_eq {data : List Nat} (h : CONFIG_ARRAY_START + 4 ≤ data.length) :
    get_config_count data =
      .ok (fromLE4 (byteSlice data CONFIG_ARRAY_START (CONFIG_ARRAY_START + 4))) := by
  simp [get_config_count, h]

theorem byteSlice_encodeLines {ls : List ConfigLine} {j : Nat} (hj : j < ls.length)
    (h : ∀ l ∈ ls, (encodeLine l).length = CONFIG_LINE_SIZE) :
    byteSlice (encodeLines ls) (j * CONFIG_LINE_SIZE) ((j + 1) * CONFIG_LINE_SIZE)
      = encodeLine (ls.get ⟨j, hj⟩) := by
  induction ls generalizing j with
  | nil => exact absurd hj (by simp)
  | cons a t ih =>
    have ha := h a (by simp)
    cases j with
    | zero =>
      rw [encodeLines_cons]
      unfold byteSlice
      rw [Nat.zero_mul, List.drop_zero, Nat.sub_zero, Nat.one_mul,
        List.take_append_of_le_length (by rw [ha]), ← ha, List.take_length]
      rfl
    | succ j =>
      rw [encodeLines_cons]
      unfold byteSlice
      rw [drop_append_ge (by rw [ha]; exact Nat.le_mul_of_pos_left _ (Nat.succ_pos j)), ha]
      have e1 : (j + 1) * CONFIG_LINE_SIZE - CONFIG_LINE_SIZE = j * CONFIG_LINE_SIZE := by
        rw [Nat.succ_mul]; omega
      have e2 : (j + 1 + 1) * CONFIG_LINE_SIZE - (j + 1) * CONFIG_LINE_SIZE
          = (j + 1) * CONFIG_LINE_SIZE - j * CONFIG_LINE_SIZE := by
        rw [Nat.succ_mul, Nat.succ_mul]; omega
      rw [e1, e2]
      have hj2 : j < t.length := by
        simpa using Nat.lt_of_succ_lt_succ hj
      have ih2 := ih hj2 (fun l hl => h l (by simp [hl]))
      unfold byteSlice at ih2
      rw [ih2]
      rfl

theorem add_config_lines_ok
    {config : Config} {data : List Nat} {index : Nat} {lines : List ConfigLine}
    (hcap0 : config.data.max_number_of_lines ≠ 0)
    (hidx : index ≤ config.data.max_number_of_lines - 1)
    (hfit : ∀ l ∈ lines, l.name.length ≤ MAX_NAME_LENGTH ∧ l.uri.length ≤ MAX_URI_LENGTH)
    (hlen : CONFIG_ARRAY_START + 4 ≤ data.length)
    (hwrite : CONFIG_ARRAY_START + 4 + index * CONFIG_LINE_SIZE
        + lines.length * CONFIG_LINE_SIZE ≤ data.length)
    (hover : fromLE4 (byteSlice data CONFIG_ARRAY_START (CONFIG_ARRAY_START + 4))
        + lines.length < U64_MODULUS) :
    add_config_lines config data index lines =
      .ok (writeSlice
            (writeSlice data (CONFIG_ARRAY_START + 4 + index * CONFIG_LINE_SIZE)
              (encodeLines (lines.map padLineF)))
            CONFIG_ARRAY_START
            (toLE4 ((fromLE4 (byteSlice data CONFIG_ARRAY_START (CONFIG_ARRAY_START + 4))
              + lines.length) % U32_MODULUS))) := by
  have hall : ∀ l ∈ lines.map padLineF, (encodeLine l).length = CONFIG_LINE_SIZE := by
    intro l hl
    obtain ⟨l0, hl0, rfl⟩ := List.mem_map.mp hl
    exact length_encodeLine_padLineF (hfit l0 hl0).1 (hfit l0 hl0).2
  have hser : (encodeLines (lines.map padLineF)).length
      = lines.length * CONFIG_LINE_SIZE := by
    rw [length_encodeLines hall, List.length_map]
  unfold add_config_lines
  rw [get_config_count_eq hlen, RunResult.bind_ok]
  rw [if_neg hcap0, if_neg (by omega), padLines_ok hfit, RunResult.bind_ok]
  rw [drop4_toLE4_append]
  rw [if_pos (by rw [List.length_map]; omega), if_pos (by rw [List.length_map, hser]),
    if_pos (by rw [List.length_map]; exact hover)]
  rw [List.length_map]

/-- C2, amended.  For every record list whose names fit 32 bytes and
whose uris fit 200 bytes, `add_config_lines` followed by
`get_config_line` at a written index that is within the updated live
count returns the record in its zero-padded fixed-width form
(`padLineF`): name right-padded to 32 bytes and uri to 200 bytes.  The
read side does not strip the padding — the Borsh length prefixes stored
in the slot cover the padded widths — so the original un-padded strings
are recovered exactly only when they already have the maximum width. -/
theorem add_then_get_general
    {config : Config} {data : List Nat} {index j : Nat} {lines : List ConfigLine}
    (hlen : data.length = CONFIG_ARRAY_START + 4
        + config.data.max_number_of_lines * CONFIG_LINE_SIZE)
    (hfit : ∀ l ∈ lines, l.name.length ≤ MAX_NAME_LENGTH ∧ l.uri.length ≤ MAX_URI_LENGTH)
    (hj : j < lines.length)
    (hbound : index + lines.length ≤ config.data.max_number_of_lines)
    (hover : fromLE4 (byteSlice data CONFIG_ARRAY_START (CONFIG_ARRAY_START + 4))
        + lines.length < U32_MODULUS)
    (hread : index + j ≤ fromLE4 (byteSlice data CONFIG_ARRAY_START (CONFIG_ARRAY_START + 4))
        + lines.length) :
    RunResult.bind (add_config_lines config data index lines)
        (fun d => get_config_line d (index + j))
      = .ok (padLineF (lines.get ⟨j, hj⟩)) := by
  have h240 : CONFIG_LINE_SIZE = 240 := rfl
  have h248 : CONFIG_ARRAY_START = 248 := rfl
  have hcap0 : config.data.max_number_of_lines ≠ 0 := by omega
  have hidx : index ≤ config.data.max_number_of_lines - 1 := by omega
  have hlen2 : CONFIG_ARRAY_START + 4 ≤ data.length := by
    rw [hlen]; omega
  have hwrite : CONFIG_ARRAY_START + 4 + index * CONFIG_LINE_SIZE
      + lines.length * CONFIG_LINE_SIZE ≤ data.length := by
    rw [hlen, h240, h248]
    rw [h240, h248] at hlen
    omega
  have hover64 : fromLE4 (byteSlice data CONFIG_ARRAY_START (CONFIG_ARRAY_START + 4))
      + lines.length < U64_MODULUS := by
    have : U32_MODULUS < U64_MODULUS := by norm_num [U32_MODULUS, U64_MODULUS]
    omega
  rw [add_config_lines_ok hcap0 hidx hfit hlen2 hwrite hover64, RunResult.bind_ok]
  have hall : ∀ l ∈ lines.map padLineF, (encodeLine l).length = CONFIG_LINE_SIZE := by
    intro l hl
    obtain ⟨l0, hl0, rfl⟩ := List.mem_map.mp hl
    exact length_encodeLine_padLineF (hfit l0 hl0).1 (hfit l0 hl0).2
  have hS : (encodeLines (lines.map padLineF)).length = lines.length * CONFIG_LINE_SIZE := by
    rw [length_encodeLines hall, List.length_map]
  have hmod : (fromLE4 (byteSlice data CONFIG_ARRAY_START (CONFIG_ARRAY_START + 4))
      + lines.length) % U32_MODULUS
      = fromLE4 (byteSlice data CONFIG_ARRAY_START (CONFIG_ARRAY_START + 4))
        + lines.length := Nat.mod_eq_of_lt hover
  have hd1len : (writeSlice data (CONFIG_ARRAY_START + 4 + index * CONFIG_LINE_SIZE)
      (encodeLines (lines.map padLineF))).length = data.length :=
    length_writeSlice (by rw [hS]; omega)
  have hd2len : (writeSlice
      (writeSlice data (CONFIG_ARRAY_START + 4 + index * CONFIG_LINE_SIZE)
        (encodeLines (lines.map padLineF)))
      CONFIG_ARRAY_START
      (toLE4 ((fromLE4 (byteSlice data CONFIG_ARRAY_START (CONFIG_ARRAY_START + 4))
        + lines.length) % U32_MODULUS))).length = data.length := by
    rw [length_writeSlice (by rw [length_toLE4, hd1len]; omega), hd1len]
  have hcount2 : get_config_count (writeSlice
      (writeSlice data (CONFIG_ARRAY_START + 4 + index * CONFIG_LINE_SIZE)
        (encodeLines (lines.map padLineF)))
      CONFIG_ARRAY_START
      (toLE4 ((fromLE4 (byteSlice data CONFIG_ARRAY_START (CONFIG_ARRAY_START + 4))
        + lines.length) % U32_MODULUS)))
      = .ok (fromLE4 (byteSlice data CONFIG_ARRAY_START (CONFIG_ARRAY_START + 4))
        + lines.length) := by
    rw [get_config_count_eq (by rw [hd2len]; exact hlen2)]
    have hself := @byteSlice_self_writeSlice
      (writeSlice data (CONFIG_ARRAY_START + 4 + index * CONFIG_LINE_SIZE)
        (encodeLines (lines.map padLineF)))
      (toLE4 ((fromLE4 (byteSlice data CONFIG_ARRAY_START (CONFIG_ARRAY_START + 4))
        + lines.length) % U32_MODULUS))
      CONFIG_ARRAY_START
      (by rw [length_toLE4, hd1len]; omega)
    rw [length_toLE4] at hself
    rw [hself, fromLE4_toLE4 (Nat.mod_lt _ (by norm_num [U32_MODULUS])), hmod]
  have hslot : byteSlice (writeSlice
      (writeSlice data (CONFIG_ARRAY_START + 4 + index * CONFIG_LINE_SIZE)
        (encodeLines (lines.map padLineF)))
      CONFIG_ARRAY_START
      (toLE4 ((fromLE4 (byteSlice data CONFIG_ARRAY_START (CONFIG_ARRAY_START + 4))
        + lines.length) % U32_MODULUS)))
      (CONFIG_ARRAY_START + 4 + (index + j) * CONFIG_LINE_SIZE)
      (CONFIG_ARRAY_START + 4 + (index + j + 1) * CONFIG_LINE_SIZE)
      = encodeLine (padLineF (lines.get ⟨j, hj⟩)) := by
    rw [byteSlice_suffix_writeSlice
      (by rw [length_toLE4, hd1len]; omega)
      (by rw [length_toLE4, h248, h240]; omega)]
    rw [byteSlice_within_writeSlice
      (by rw [hS]; omega)
      (by rw [h248, h240]; omega)
      (by rw [h248, h240]; omega)
      (by rw [hS, h248, h240]; omega)]
    have e1 : CONFIG_ARRAY_START + 4 + (index + j) * CONFIG_LINE_SIZE
        - (CONFIG_ARRAY_START + 4 + index * CONFIG_LINE_SIZE) = j * CONFIG_LINE_SIZE := by
      rw [h248, h240]; omega
    have e2 : CONFIG_ARRAY_START + 4 + (index + j + 1) * CONFIG_LINE_SIZE
        - (CONFIG_ARRAY_START + 4 + index * CONFIG_LINE_SIZE) = (j + 1) * CONFIG_LINE_SIZE := by
      rw [h248, h240]; omega
    rw [e1, e2, byteSlice_encodeLines (by rw [List.length_map]; exact hj) hall,
      List.get_map]
  have hmem : lines.get ⟨j, hj⟩ ∈ lines := List.get_mem lines j hj
  have htry : tryFromSlice (encodeLine (padLineF (lines.get ⟨j, hj⟩))) =
      some (padLineF (lines.get ⟨j, hj⟩)) :=
    tryFromSlice_encodeLine
      (by rw [padLineF_name_length (hfit _ hmem).1]; norm_num [MAX_NAME_LENGTH, U32_MODULUS])
      (by rw [padLineF_uri_length (hfit _ hmem).2]; norm_num [MAX_URI_LENGTH, U32_MODULUS])
  simp only [get_config_line, hcount2, RunResult.bind_ok]
  rw [if_neg (by omega), if_pos (by rw [hd2len, hlen, h248, h240]; omega)]
  rw [hslot, htry]
theorem bind_ne_err {α β : Type} {x : RunResult α} {f : α → RunResult β} {e : ProgErr}
    (hx : x ≠ .err e) (hf : ∀ a, f a ≠ .err e) : RunResult.bind x f ≠ .err e := by
  cases x with
  | ok a => simpa using hf a
  | err e2 =>
    simp only [RunResult.bind_err]
    intro h
    injection h with he
    exact hx (by rw [he])
  | panic => simp

theorem mint_payment_ne_not_live (candy_machine : CandyMachine) (env : MintEnv) :
    mint_payment candy_machine env ≠ .err (.code .CandyMachineNotLiveYet) := by
  unfold mint_payment
  cases candy_machine.token_mint with
  | none => split_ifs <;> simp [ite_eq_iff]
  | some mint => split_ifs <;> simp [ite_eq_iff]

theorem get_config_count_ne_not_live (data : List Nat) :
    get_config_count data ≠ .err (.code .CandyMachineNotLiveYet) := by
  unfold get_config_count
  split_ifs <;> simp

theorem get_config_line_ne_not_live (data : List Nat) (index : Nat) :
    get_config_line data index ≠ .err (.code .CandyMachineNotLiveYet) := by
  unfold get_config_line
  refine bind_ne_err (get_config_count_ne_not_live data) fun total => ?_
  split_ifs with h1 h2
  · simp
  · cases htf : tryFromSlice (byteSlice data
      (CONFIG_ARRAY_START + 4 + index * CONFIG_LINE_SIZE)
      (CONFIG_ARRAY_START + 4 + (index + 1) * CONFIG_LINE_SIZE)) <;> simp [htf]
  · simp

theorem mint_nft_after_window_ne_not_live (candy_machine : CandyMachine) (config : Config)
    (config_account_data : List Nat) (env : MintEnv) :
    mint_nft_after_window candy_machine config config_account_data env
      ≠ .err (.code .CandyMachineNotLiveYet) := by
  unfold mint_nft_after_window
  split_ifs with h1
  · simp
  all_goals refine bind_ne_err (mint_payment_ne_not_live _ _) fun a => ?_
  all_goals
    first
      | (simp; done)
      | exact bind_ne_err (get_config_line_ne_not_live _ _) (fun cl => by simp)

/-- Example sale configuration with declared capacity 1, used in the
concrete runs below. -/
def exampleConfig : Config :=
  ⟨0, 7, ⟨[1, 2, 3, 4, 5, 6], [83], 500, [], 0, true, true, 1⟩⟩

/-- Example sale configuration with declared capacity 2. -/
def exampleConfig2 : Config :=
  ⟨0, 7, ⟨[1, 2, 3, 4, 5, 6], [83], 500, [], 0, true, true, 2⟩⟩

/-- Example sale configuration with declared capacity 0. -/
def exampleConfig0 : Config :=
  ⟨0, 7, ⟨[1, 2, 3, 4, 5, 6], [83], 500, [], 0, true, true, 0⟩⟩

/-- An example sold-out candy machine: one item available, one already
redeemed, no go-live date, authority 2. -/
def exampleCandyMachineSoldOut : CandyMachine :=
  ⟨2, 5, none, 9, ⟨[1, 2, 3, 4, 5, 6], 0, 1, none⟩, 1, 0⟩

/-- A mint invocation by payer 1, who is not the authority. -/
def exampleMintEnvWrongPayer : MintEnv :=
  ⟨1, 0, 100, ⟨5, 1, true, 0, 0⟩, true, true, true, true, 4, 11⟩

/-- A mint invocation by payer 2, the authority of
`exampleCandyMachineSoldOut`. -/
def exampleMintEnvAuthority : MintEnv :=
  ⟨2, 0, 100, ⟨5, 1, true, 0, 0⟩, true, true, true, true, 4, 11⟩

/-- C1, counterexample.  The claim says every `mint_nft` invocation with
`items_redeemed ≥ items_available` fails with the sold-out error
`CandyMachineEmpty`; but the go-live window check of lib.rs lines 34-47
runs first, so a non-authority payer on a machine with no go-live date
receives `CandyMachineNotLiveYet` instead, even though the machine is
sold out. -/
theorem mint_nft_sold_out_counterexample :
    exampleCandyMachineSoldOut.items_redeemed
        ≥ exampleCandyMachineSoldOut.data.items_available ∧
    mint_nft exampleCandyMachineSoldOut exampleConfig [] exampleMintEnvWrongPayer
      = .err (.code .CandyMachineNotLiveYet) ∧
    mint_nft exampleCandyMachineSoldOut exampleConfig [] exampleMintEnvWrongPayer
      ≠ .err (.code .CandyMachineEmpty) := by
  decide

/-- C1, amended.  If `items_redeemed ≥ items_available` at call time, a
`mint_nft` invocation never succeeds and performs no state mutation: it
returns either `CandyMachineNotLiveYet` (when the go-live window check
rejects the payer first) or the sold-out error `CandyMachineEmpty`; and
whenever the window check passes (the payer is the authority, or the
go-live date has been reached), the error is exactly
`CandyMachineEmpty`.  In particular, after N successful claims against a
machine with `items_available = N`, an (N+1)-th attempt by a
window-authorized claimant fails with `CandyMachineEmpty`. -/
theorem mint_nft_sold_out_never_succeeds
    (candy_machine : CandyMachine) (config : Config) (config_account_data : List Nat)
    (env : MintEnv)
    (h : candy_machine.items_redeemed ≥ candy_machine.data.items_available) :
    (mint_nft candy_machine config config_account_data env
        = .err (.code .CandyMachineNotLiveYet) ∨
      mint_nft candy_machine config config_account_data env
        = .err (.code .CandyMachineEmpty)) ∧
    ((env.payer = candy_machine.authority ∨
        ∃ v, candy_machine.data.go_live_date = some v ∧ v ≤ env.now) →
      mint_nft candy_machine config config_account_data env
        = .err (.code .CandyMachineEmpty)) := by
  have hw : mint_nft_after_window candy_machine config config_account_data env
      = .err (.code .CandyMachineEmpty) := by
    unfold mint_nft_after_window
    rw [if_pos h]
  constructor
  · cases hg : candy_machine.data.go_live_date with
    | none =>
      by_cases hp : env.payer = candy_machine.authority
      · right
        simp only [mint_nft, hg]
        rw [if_neg (by simp [hp]), hw]
      · left
        simp only [mint_nft, hg]
        rw [if_pos hp]
    | some v =>
      by_cases ht : env.now < v
      · by_cases hp : env.payer = candy_machine.authority
        · right
          simp only [mint_nft, hg]
          rw [if_pos ht, if_neg (by simp [hp]), hw]
        · left
          simp only [mint_nft, hg]
          rw [if_pos ht, if_pos hp]
      · right
        simp only [mint_nft, hg]
        rw [if_neg ht, hw]
  · intro hcond
    cases hg : candy_machine.data.go_live_date with
    | none =>
      rcases hcond with hp | ⟨v, hv, _⟩
      · simp only [mint_nft, hg]
        rw [if_neg (by simp [hp]), hw]
      · rw [hg] at hv
        cases hv
    | some v =>
      rcases hcond with hp | ⟨v2, hv2, hnow⟩
      · by_cases ht : env.now < v
        · simp only [mint_nft, hg]
          rw [if_pos ht, if_neg (by simp [hp]), hw]
        · simp only [mint_nft, hg]
          rw [if_neg ht, hw]
      · rw [hg] at hv2
        injection hv2 with he
        subst he
        simp only [mint_nft, hg]
        rw [if_neg (not_lt.mpr hnow), hw]

/-- Witness for `mint_nft_sold_out_never_succeeds` at a concrete sold-out
machine with the authority as payer. -/
theorem mint_nft_sold_out_never_succeeds_witness :
    mint_nft exampleCandyMachineSoldOut exampleConfig [] exampleMintEnvAuthority
      = .err (.code .CandyMachineEmpty) :=
  (mint_nft_sold_out_never_succeeds exampleCandyMachineSoldOut exampleConfig []
    exampleMintEnvAuthority (by decide)).2 (Or.inl (by decide))

/-- C7.  The go-live window check of `mint_nft`: when `go_live_date` is
absent, or present with `now` strictly before it, any payer other than
the candy machine authority receives `CandyMachineNotLiveYet` (so a
claim can succeed only for the authority); and when `go_live_date` is
present and reached, no invocation returns `CandyMachineNotLiveYet`,
whoever the payer is. -/
theorem mint_nft_go_live_window
    (candy_machine : CandyMachine) (config : Config) (config_account_data : List Nat)
    (env : MintEnv) :
    ((candy_machine.data.go_live_date = none ∨
        ∃ v, candy_machine.data.go_live_date = some v ∧ env.now < v) →
      env.payer ≠ candy_machine.authority →
      mint_nft candy_machine config config_account_data env
        = .err (.code .CandyMachineNotLiveYet)) ∧
    (∀ v, candy_machine.data.go_live_date = some v → v ≤ env.now →
      mint_nft candy_machine config config_account_data env
        ≠ .err (.code .CandyMachineNotLiveYet)) := by
  constructor
  · rintro (hg | ⟨v, hg, ht⟩) hp
    · simp only [mint_nft, hg]
      rw [if_pos hp]
    · simp only [mint_nft, hg]
      rw [if_pos ht, if_pos hp]
  · intro v hg ht
    simp only [mint_nft, hg]
    rw [if_neg (not_lt.mpr ht)]
    exact mint_nft_after_window_ne_not_live candy_machine config config_account_data env

/-- Witness for `mint_nft_go_live_window`: a non-authority payer before
any go-live date is rejected with `CandyMachineNotLiveYet`. -/
theorem mint_nft_go_live_window_witness :
    mint_nft exampleCandyMachineSoldOut exampleConfig [] exampleMintEnvWrongPayer
      = .err (.code .CandyMachineNotLiveYet) :=
  (mint_nft_go_live_window exampleCandyMachineSoldOut exampleConfig []
    exampleMintEnvWrongPayer).1 (Or.inl rfl) (by decide)

/-- C2, counterexample.  The claim says the append/read round trip
returns the original un-padded strings with zero padding stripped; but
`get_config_line` Borsh-decodes the fixed-width slot, whose length
prefixes cover the padded widths, so the returned name and uri keep
their trailing zero bytes. -/
theorem add_then_get_returns_padded_counterexample :
    RunResult.bind (add_config_lines exampleConfig (freshLedger 1) 0 [⟨[65], [66]⟩])
        (fun d => get_config_line d 0)
      = .ok ⟨[65] ++ List.replicate 31 0, [66] ++ List.replicate 199 0⟩ ∧
    ([65] ++ List.replicate 31 0 : List Nat) ≠ [65] := by
  decide

/-- Witness for `add_then_get_general`: two records appended at index 0
of a fresh capacity-2 ledger; reading index 1 returns the second record
in its padded form. -/
theorem add_then_get_general_witness :
    RunResult.bind (add_config_lines exampleConfig2 (freshLedger 2) 0
        [⟨[65], [66]⟩, ⟨[67], [68]⟩])
        (fun d => get_config_line d 1)
      = .ok (padLineF ⟨[67], [68]⟩) :=
  @add_then_get_general exampleConfig2 (freshLedger 2) 0 1
    [⟨[65], [66]⟩, ⟨[67], [68]⟩] (by decide) (by decide) (by decide) (by decide)
    (by decide) (by decide)

/-- C3: the padding loop of `add_config_lines` has no width validation;
on a name longer than `MAX_NAME_LENGTH` the `usize` subtraction
`MAX_NAME_LENGTH - line.name.len()` underflows and the instruction
aborts instead of returning a validation error. -/
theorem add_config_lines_overlong_name_aborts :
    (List.replicate 33 65).length > MAX_NAME_LENGTH ∧
    add_config_lines exampleConfig (freshLedger 1) 0 [⟨List.replicate 33 65, [66]⟩]
      = .panic ∧
    ∀ e, add_config_lines exampleConfig (freshLedger 1) 0 [⟨List.replicate 33 65, [66]⟩]
      ≠ .err e := by
  refine ⟨by decide, by decide, fun e => ?_⟩
  intro h
  have h2 : RunResult.panic (α := List Nat) = .err e := by
    rw [← h]
    decide
  cases h2

/-- C4: `add_config_lines` adds the number of appended lines to the
count header without comparing the result against
`max_number_of_lines`; two overlapping appends at index 0 of a
capacity-1 ledger leave a live count of 2, violating the
liveCount ≤ declaredCapacity invariant (while the invariant does hold
in the freshly created state). -/
theorem add_config_lines_overlapping_append_count_exceeds_capacity :
    exampleConfig.data.max_number_of_lines = 1 ∧
    get_config_count (freshLedger 1) = .ok 0 ∧
    RunResult.bind (add_config_lines exampleConfig (freshLedger 1) 0 [⟨[65], [66]⟩])
        (fun d => RunResult.bind (add_config_lines exampleConfig d 0 [⟨[65], [66]⟩])
          (fun d2 => get_config_count d2))
      = .ok 2 := by
  decide

/-- C5, counterexample.  With declaredCapacity = 0 the bounds check
computes `max_number_of_lines - 1` on a `u32`, which underflows, so an
append at start index 0 ≥ 0 = declaredCapacity aborts instead of
returning the `IndexGreaterThanLength` validation error. -/
theorem add_config_lines_capacity_zero_counterexample :
    exampleConfig0.data.max_number_of_lines = 0 ∧
    add_config_lines exampleConfig0 (freshLedger 0) 0 [⟨[65], [66]⟩] = .panic ∧
    add_config_lines exampleConfig0 (freshLedger 0) 0 [⟨[65], [66]⟩]
      ≠ .err (.code .IndexGreaterThanLength) := by
  decide

/-- C5, amended.  For declaredCapacity ≥ 1, every `add_config_lines`
call with start index ≥ declaredCapacity fails with
`IndexGreaterThanLength` before any byte of the account is written, so
the live count is unchanged; with declaredCapacity = 0 the bounds
computation underflows and the call aborts instead. -/
theorem add_config_lines_start_index_out_of_range
    (config : Config) (data : List Nat) (index : Nat) (config_lines : List ConfigLine)
    (hcap : 1 ≤ config.data.max_number_of_lines)
    (hidx : config.data.max_number_of_lines ≤ index)
    (hlen : CONFIG_ARRAY_START + 4 ≤ data.length) :
    add_config_lines config data index config_lines
      = .err (.code .IndexGreaterThanLength) := by
  unfold add_config_lines
  rw [get_config_count_eq hlen, RunResult.bind_ok, if_neg (by omega), if_pos (by omega)]

/-- Witness for `add_config_lines_start_index_out_of_range` at
capacity 1 and start index 1. -/
theorem add_config_lines_start_index_out_of_range_witness :
    add_config_lines exampleConfig (freshLedger 1) 1 [⟨[65], [66]⟩]
      = .err (.code .IndexGreaterThanLength) :=
  add_config_lines_start_index_out_of_range exampleConfig (freshLedger 1) 1
    [⟨[65], [66]⟩] (by decide) (by decide) (by decide)

/-- A list of four creators used in the configuration-creation runs. -/
def fourCreators : List Creator :=
  [⟨3, false, 25⟩, ⟨3, false, 25⟩, ⟨3, false, 25⟩, ⟨3, false, 25⟩]

/-- A list of five creators. -/
def fiveCreators : List Creator :=
  ⟨3, false, 25⟩ :: fourCreators

/-- C6, counterexample.  The claim says `initialize_config` rejects any
creator list longer than 3; but the check in lib.rs is
`creators.len() > MAX_CREATOR_LIMIT - 1` with `MAX_CREATOR_LIMIT = 5`,
so a list of 4 creators passes and the call succeeds. -/
theorem initialize_config_four_creators_counterexample :
    fourCreators.length > 3 ∧
    initialize_config 7 0 ⟨[1, 2, 3, 4, 5, 6], [83], 500, fourCreators, 0, true, true, 1⟩
      = .ok ⟨0, 7, ⟨[1, 2, 3, 4, 5, 6], [83] ++ List.replicate 9 0, 500, fourCreators,
          0, true, true, 1⟩⟩ := by
  decide

/-- C6, amended.  For inputs passing the earlier checks (6-byte uuid,
symbol within its fixed width), `initialize_config` fails with
`TooManyCreators` exactly when the creator list is longer than
`MAX_CREATOR_LIMIT - 1 = 4`: up to 4 creators pass, 5 or more are
rejected. -/
theorem initialize_config_too_many_creators_iff
    (authority bump : Nat) (data : ConfigData)
    (huuid : data.uuid.length = 6) (hsym : data.symbol.length ≤ MAX_SYMBOL_LENGTH) :
    initialize_config authority bump data = .err (.code .TooManyCreators)
      ↔ data.creators.length > MAX_CREATOR_LIMIT - 1 := by
  simp only [initialize_config, padField_ok hsym]
  rw [if_neg (by omega)]
  by_cases hc : data.creators.length > MAX_CREATOR_LIMIT - 1
  · rw [if_pos hc]
    simp [hc]
  · rw [if_neg hc]
    simp [hc]

/-- Witness for `initialize_config_too_many_creators_iff`: five creators
are rejected with `TooManyCreators`. -/
theorem initialize_config_too_many_creators_iff_witness :
    initialize_config 7 0 ⟨[1, 2, 3, 4, 5, 6], [83], 500, fiveCreators, 0, true, true, 1⟩
      = .err (.code .TooManyCreators) :=
  (initialize_config_too_many_creators_iff 7 0
    ⟨[1, 2, 3, 4, 5, 6], [83], 500, fiveCreators, 0, true, true, 1⟩
    (by decide) (by decide)).mpr (by decide)

/-- C9.  The bounds check of `add_config_lines` constrains only the
start index: at start index 0 < declaredCapacity = 1 with two records
(end 0 + 2 > 1), the call passes the index check and aborts at the
out-of-bounds slice of the backing bytes instead of returning a
validation error. -/
theorem add_config_lines_end_unchecked_write_aborts :
    0 < exampleConfig.data.max_number_of_lines ∧
    exampleConfig.data.max_number_of_lines < 0 + 2 ∧
    add_config_lines exampleConfig (freshLedger 1) 0 [⟨[65], [66]⟩, ⟨[67], [68]⟩]
      = .panic ∧
    add_config_lines exampleConfig (freshLedger 1) 0 [⟨[65], [66]⟩, ⟨[67], [68]⟩]
      ≠ .err (.code .IndexGreaterThanLength) := by
  decide

theorem length_freshLedger (cap : Nat) :
    (freshLedger cap).length = CONFIG_ARRAY_START + 4 + cap * CONFIG_LINE_SIZE := by
  simp [freshLedger]

theorem byteSlice_replicate (m lo hi : Nat) :
    byteSlice (List.replicate m 0) lo hi = List.replicate (min (hi - lo) (m - lo)) 0 := by
  unfold byteSlice
  rw [List.drop_replicate, List.take_replicate]

theorem get_config_count_freshLedger (cap : Nat) :
    get_config_count (freshLedger cap) = .ok 0 := by
  rw [get_config_count_eq (by rw [length_freshLedger]; omega)]
  unfold freshLedger
  rw [byteSlice_replicate]
  have hm : min (CONFIG_ARRAY_START + 4 - CONFIG_ARRAY_START)
      (CONFIG_ARRAY_START + 4 + cap * CONFIG_LINE_SIZE - CONFIG_ARRAY_START) = 4 := by
    omega
  rw [hm]
  decide

theorem get_config_line_freshLedger {cap : Nat} (h : 1 ≤ cap) :
    get_config_line (freshLedger cap) 0 = .err .deserializeFailed := by
  have h240 : CONFIG_LINE_SIZE = 240 := rfl
  have h248 : CONFIG_ARRAY_START = 248 := rfl
  unfold get_config_line
  rw [get_config_count_freshLedger, RunResult.bind_ok, if_neg (by omega),
    if_pos (by rw [length_freshLedger, h248, h240]; omega)]
  unfold freshLedger
  rw [byteSlice_replicate]
  have hm : min (CONFIG_ARRAY_START + 4 + (0 + 1) * CONFIG_LINE_SIZE
        - (CONFIG_ARRAY_START + 4 + 0 * CONFIG_LINE_SIZE))
      (CONFIG_ARRAY_START + 4 + cap * CONFIG_LINE_SIZE
        - (CONFIG_ARRAY_START + 4 + 0 * CONFIG_LINE_SIZE)) = 240 := by
    rw [h248, h240]
    have h1 : (1 : Nat) * 240 ≤ cap * 240 := by
      exact Nat.mul_le_mul_right 240 h
    omega
  rw [hm]
  decide

/-- An example candy machine creation request with a 6-byte uuid. -/
def exampleCandyData : CandyMachineData := ⟨[1, 2, 3, 4, 5, 6], 10, 1, none⟩

/-- An example wallet account (native payment: plain lamport account). -/
def exampleWalletAccount : SplAccountInfo := ⟨5, 1, true, 0, 0⟩

/-- A capacity-1 ledger holding one record: the padded line written at
slot 0 and the count header set to 1, exactly the bytes
`add_config_lines` produces on a fresh ledger. -/
def exampleLoadedLedger : List Nat :=
  writeSlice
    (writeSlice (freshLedger 1) (CONFIG_ARRAY_START + 4)
      (encodeLine (padLineF ⟨[65], [66]⟩)))
    CONFIG_ARRAY_START (toLE4 1)

/-- C8, counterexample.  The claim says `initialize_candy_machine` fails
with `ConfigMustHaveAtLeastOneEntry` whenever the bound ledger's live
count is 0, in particular on a freshly created zeroed ledger; but on a
zeroed ledger of declared capacity 0, `get_config_line` slices past the
end of the buffer and the call aborts instead of returning that
error. -/
theorem initialize_candy_machine_capacity_zero_counterexample :
    get_config_count (freshLedger 0) = .ok 0 ∧
    initialize_candy_machine 7 5 9 0 exampleCandyData exampleWalletAccount none
        (freshLedger 0)
      = .panic ∧
    initialize_candy_machine 7 5 9 0 exampleCandyData exampleWalletAccount none
        (freshLedger 0)
      ≠ .err (.code .ConfigMustHaveAtleastOneEntry) := by
  decide

/-- C8, amended.  For a creation request with a 6-byte uuid and no token
mint in the remaining accounts: binding to a freshly created zeroed
ledger of declared capacity at least 1 (live count 0) fails with
`ConfigMustHaveAtleastOneEntry`; binding to any config account whose
slot 0 decodes as a record (in particular one with live count ≥ 1 and a
well-formed slot 0) passes the check and succeeds.  A zeroed ledger of
capacity 0 instead aborts on the out-of-bounds slot read. -/
theorem initialize_candy_machine_config_entry_check
    (authority wallet_key config_key bump : Nat) (data : CandyMachineData)
    (wallet_account : SplAccountInfo) (config_account_data : List Nat)
    (huuid : data.uuid.length = 6) :
    (∀ cap, 1 ≤ cap → config_account_data = freshLedger cap →
      initialize_candy_machine authority wallet_key config_key bump data wallet_account
          none config_account_data
        = .err (.code .ConfigMustHaveAtleastOneEntry)) ∧
    (∀ line, get_config_line config_account_data 0 = .ok line →
      initialize_candy_machine authority wallet_key config_key bump data wallet_account
          none config_account_data
        = .ok ⟨authority, wallet_key, none, config_key, data, 0, bump⟩) := by
  constructor
  · intro cap hcap hdata
    subst hdata
    unfold initialize_candy_machine
    rw [if_neg (by omega)]
    unfold check_config_has_line
    rw [get_config_line_freshLedger hcap]
  · intro line hline
    unfold initialize_candy_machine
    rw [if_neg (by omega)]
    unfold check_config_has_line
    rw [hline]

/-- Witness for `initialize_candy_machine_config_entry_check`: a fresh
capacity-1 ledger is rejected, a loaded capacity-1 ledger is accepted. -/
theorem initialize_candy_machine_config_entry_check_witness :
    initialize_candy_machine 7 5 9 0 exampleCandyData exampleWalletAccount none
        (freshLedger 1)
      = .err (.code .ConfigMustHaveAtleastOneEntry) ∧
    initialize_candy_machine 7 5 9 0 exampleCandyData exampleWalletAccount none
        exampleLoadedLedger
      = .ok ⟨7, 5, none, 9, exampleCandyData, 0, 0⟩ :=
  ⟨(initialize_candy_machine_config_entry_check 7 5 9 0 exampleCandyData
      exampleWalletAccount (freshLedger 1) (by decide)).1 1 (by decide) rfl,
   (initialize_candy_machine_config_entry_check 7 5 9 0 exampleCandyData
      exampleWalletAccount exampleLoadedLedger (by decide)).2
      (padLineF ⟨[65], [66]⟩) (by decide)⟩

/-- C10.  The index check of `get_config_line` rejects only indices
strictly greater than the live count: reading at exactly the live count
n never yields `IndexGreaterThanLength`; when slot n exists and is
zeroed the call fails with a deserialization error, and when slot n
happens to hold bytes that decode as a full fixed-width record the call
succeeds with that record. -/
theorem get_config_line_at_live_count
    (data : List Nat) (n cap : Nat)
    (hlen : data.length = CONFIG_ARRAY_START + 4 + cap * CONFIG_LINE_SIZE)
    (hcount : get_config_count data = .ok n) :
    (get_config_line data n ≠ .err (.code .IndexGreaterThanLength)) ∧
    (n < cap →
      byteSlice data (CONFIG_ARRAY_START + 4 + n * CONFIG_LINE_SIZE)
          (CONFIG_ARRAY_START + 4 + (n + 1) * CONFIG_LINE_SIZE)
        = List.replicate CONFIG_LINE_SIZE 0 →
      get_config_line data n = .err .deserializeFailed) ∧
    (∀ cl, n < cap →
      tryFromSlice (byteSlice data (CONFIG_ARRAY_START + 4 + n * CONFIG_LINE_SIZE)
          (CONFIG_ARRAY_START + 4 + (n + 1) * CONFIG_LINE_SIZE)) = some cl →
      get_config_line data n = .ok cl) := by
  have h240 : CONFIG_LINE_SIZE = 240 := rfl
  have h248 : CONFIG_ARRAY_START = 248 := rfl
  refine ⟨?_, ?_, ?_⟩
  · unfold get_config_line
    rw [hcount, RunResult.bind_ok, if_neg (by omega)]
    split_ifs with hb
    · cases htf : tryFromSlice (byteSlice data
        (CONFIG_ARRAY_START + 4 + n * CONFIG_LINE_SIZE)
        (CONFIG_ARRAY_START + 4 + (n + 1) * CONFIG_LINE_SIZE)) <;> simp [htf]
    · simp
  · intro hcap hz
    unfold get_config_line
    rw [hcount, RunResult.bind_ok, if_neg (by omega),
      if_pos (by rw [hlen, h248, h240]; omega), hz]
    decide
  · intro cl hcap htf
    unfold get_config_line
    rw [hcount, RunResult.bind_ok, if_neg (by omega),
      if_pos (by rw [hlen, h248, h240]; omega), htf]

/-- Witness for `get_config_line_at_live_count`: on a fresh capacity-1
ledger with live count 0, reading index 0 (the first undefined slot)
fails with the deserialization error, not `IndexGreaterThanLength`. -/
theorem get_config_line_at_live_count_witness :
    get_config_line (freshLedger 1) 0 = .err .deserializeFailed :=
  (get_config_line_at_live_count (freshLedger 1) 0 1 (by decide) (by decide)).2.1
    (by decide) (by decide)
